import Mathlib

/-!
Verification of the BLE heart-rate client `get-rate.py`.

The development shallowly embeds the two pure/sequential cores of the
script: the `HR_measurement` frame decoder (with Python's exception
behaviour made explicit as an `Except` result) and the connection
lifecycle routines of `HeartRateLoop` (`get_device`, `connect_device`,
the `ServicesResolved` wait loop, the notification handler, and the
teardown sequence of `start`), with the DBus/BlueZ environment modelled
as oracles and side effects as event traces.
-/

/-- Exceptions that can escape the embedded Python code paths.
`indexError` models `data[0]` on an empty sequence, `zeroDivisionError`
models `60 * 1024 / 0`. -/
inductive PyErr
  | indexError
  | zeroDivisionError
deriving DecidableEq

/-- Embedding of `as_uint`: `for i in range(len(bytelist)): val += bytelist[i] * pow(256, i)`. -/
def as_uint (bytelist : List Nat) : Nat :=
  (List.range bytelist.length).foldl (fun val i => val + bytelist.getD i 0 * 256 ^ i) 0

/-- Decoded heart-rate measurement: the attributes set by `HR_measurement.__init__`.
RR values are Python floats, modelled as rationals. -/
structure HR_measurement where
  HR : Nat
  EE : Option Nat
  RR : List ℚ
deriving DecidableEq

/-- Embedding of the RR-interval loop of `HR_measurement.__init__`:
`while len(data): rr = 60 * 1024 / as_uint(data[0:2]); data = data[2:]; self.RR.append(rr)`.
The three cases correspond to `len(data)` being 0, 1, or at least 2
(`data[0:2]` yields one byte when only one remains; division by a zero
chunk raises `ZeroDivisionError`). -/
def rr_loop : List Nat → Except PyErr (List ℚ)
  | [] => .ok []
  | [a] =>
    if as_uint [a] = 0 then .error .zeroDivisionError
    else .ok [60 * 1024 / (as_uint [a] : ℚ)]
  | a :: b :: rest =>
    if as_uint [a, b] = 0 then .error .zeroDivisionError
    else
      match rr_loop rest with
      | .ok rrs => .ok ((60 * 1024 / (as_uint [a, b] : ℚ)) :: rrs)
      | .error e => .error e

/-- Final stage of `HR_measurement.__init__`: run the RR loop on the
remaining bytes and assemble the measurement. -/
def decode_rr (hr : Nat) (ee : Option Nat) (data : List Nat) : Except PyErr HR_measurement :=
  match rr_loop data with
  | .ok rrs => .ok ⟨hr, ee, rrs⟩
  | .error e => .error e

/-- Energy-expended stage of `HR_measurement.__init__`: `if flags & 0x08:
self.EE = as_uint(data[0:2]); data = data[2:] else: self.EE = None`. -/
def decode_ee (flags hr : Nat) (data : List Nat) : Except PyErr HR_measurement :=
  if flags.testBit 3 then decode_rr hr (some (as_uint (data.take 2))) (data.drop 2)
  else decode_rr hr none data

/-- Embedding of `HR_measurement.__init__(data)`. `data[0]` on an empty
frame raises `IndexError`; flags bit 0 selects a 2-byte or 1-byte slice
for the heart rate (`as_uint(data[0:2])` or `as_uint(data[0:1])`). -/
def HR_measurement.decode : List Nat → Except PyErr HR_measurement
  | [] => .error .indexError
  | flags :: data =>
    if flags.testBit 0 then decode_ee flags (as_uint (data.take 2)) (data.drop 2)
    else decode_ee flags (as_uint (data.take 1)) (data.drop 1)

/-- Outcome of one invocation of `HeartRateLoop.notification_handler` on
the `changed_props` dictionary, abstracted to whether a `Value` entry is
present and, if so, its byte payload. The handler's `try` block catches
only `KeyError` (missing `Value`); an exception raised inside
`HR_measurement(data)` propagates out of the handler. -/
inductive HandlerOutcome
  | printed (m : HR_measurement)
  | ignoredNoValue
  | uncaught (e : PyErr)
deriving DecidableEq

/-- Embedding of `HeartRateLoop.notification_handler`. -/
def notification_handler (value : Option (List Nat)) : HandlerOutcome :=
  match value with
  | none => .ignoredNoValue
  | some data =>
    match HR_measurement.decode data with
    | .ok m => .printed m
    | .error e => .uncaught e

/-- Result of one call to `HeartRateLoop.get_device_path(uuid)` as seen by
`get_device`: a truthy DBus path, a `None` result (no managed object
advertises the service), or an `AttributeError`/`KeyError` escaping the
lookup (the exceptions `get_device` catches). -/
inductive LookupRes
  | found (path : String)
  | nomatch
  | raises
deriving DecidableEq

/-- Adapter side effects performed by `get_device`. -/
inductive ScanEvent
  | startDiscovery
  | stopDiscovery
deriving DecidableEq

/-- Outcome of `get_device`. `unboundLocalCrash` models the
`UnboundLocalError` at `if dev:` when the lookup raised with a nonzero
retry counter (the `except` clause assigns nothing and re-raises
nothing). `fuelExhausted` marks runs longer than the fuel bound; the
source recursion itself has no termination bound. -/
inductive DiscOutcome
  | device (path : String)
  | deviceNotFound
  | unboundLocalCrash
  | fuelExhausted
deriving DecidableEq

/-- Embedding of `HeartRateLoop.get_device(uuid, retry, discovery_delay)`.
`lookup k` is the result of the lookup in the k-th recursive call. On a
`None` result the code starts and stops discovery and recurses with
`max(-1, retry - 1)`; `DeviceNotFound` is raised only inside the
`except (AttributeError, KeyError)` clause and only when `retry == 0`. -/
def get_device : Nat → Int → (Nat → LookupRes) → Nat → List ScanEvent × DiscOutcome
  | 0, _, _, _ => ([], .fuelExhausted)
  | fuel + 1, retry, lookup, k =>
    match lookup k with
    | .found p => ([], .device p)
    | .raises => if retry = 0 then ([], .deviceNotFound) else ([], .unboundLocalCrash)
    | .nomatch =>
      let r := get_device fuel (max (-1) (retry - 1)) lookup (k + 1)
      (.startDiscovery :: .stopDiscovery :: r.1, r.2)

/-- Embedding of `HeartRateLoop.get_device_path(uuid)`: scan the managed
objects in order and return the first path whose `org.bluez.Device1`
UUID list is truthy and contains `uuid.casefold()` (modelled as
`String.toLower`). A missing `Device1` interface or `UUIDs` property is
`none`. -/
def get_device_path (objs : List (String × Option (List String))) (uuid : String) :
    Option String :=
  match objs with
  | [] => none
  | (path, uuids) :: rest =>
    match uuids with
    | some us => if us ≠ [] ∧ uuid.toLower ∈ us then some path else get_device_path rest uuid
    | none => get_device_path rest uuid

/-- Per-iteration environment of `HeartRateLoop.connect_device`:
`connected i` is the value of `self.device.Connected` read at the i-th
`while` check, `raises i` tells whether the i-th `self.device.Connect()`
call raises. -/
structure ConnEnv where
  connected : Nat → Bool
  raises : Nat → Bool

/-- Adapter calls performed by `connect_device`. -/
inductive ConnEvent
  | connectCall
  | disconnectCall
deriving DecidableEq

/-- Outcome of `connect_device`: the `while` loop observed `Connected`,
or `DeviceConnexionError` was raised, or the fuel bound was hit (the
source loop itself is unbounded). -/
inductive ConnResult
  | done
  | connError
  | fuelOut
deriving DecidableEq

/-- Embedding of `HeartRateLoop.connect_device(retry)`: while the device
is not connected, decrement `retry` and call `Connect()`; on an
exception, `Disconnect()` and retry if `retry > 0`, else raise
`DeviceConnexionError`. -/
def connect_device : Nat → Int → ConnEnv → Nat → List ConnEvent × ConnResult
  | 0, _, _, _ => ([], .fuelOut)
  | fuel + 1, retry, env, i =>
    if env.connected i then ([], .done)
    else
      if env.raises i then
        if retry - 1 > 0 then
          let r := connect_device fuel (retry - 1) env (i + 1)
          (.connectCall :: .disconnectCall :: r.1, r.2)
        else ([.connectCall], .connError)
      else
        let r := connect_device fuel (retry - 1) env (i + 1)
        (.connectCall :: r.1, r.2)

/-- Device state polled by the service-resolution wait loop in
`HeartRateLoop.start`. -/
structure DevState where
  ServicesResolved : Bool
  Connected : Bool
deriving DecidableEq

/-- Steps taken by `start` between `connect_device` and the
characteristic lookup: a `time.sleep(0.5)` poll, the fall-through to
`get_characteristic_path`, or a raised connection error (present in the
event alphabet so its absence from every trace is expressible). -/
inductive ResolveEvent
  | sleep (s : ℚ)
  | charLookup
  | connectionErrorRaised
deriving DecidableEq

/-- Embedding of `while not self.device.ServicesResolved and
self.device.Connected: time.sleep(0.5)` followed by the unconditional
call to `get_characteristic_path`. `dev k` is the state read at the
k-th check. -/
def resolve_wait : Nat → (Nat → DevState) → Nat → List ResolveEvent
  | 0, _, _ => []
  | fuel + 1, dev, k =>
    if ¬(dev k).ServicesResolved ∧ (dev k).Connected then
      .sleep (1 / 2) :: resolve_wait fuel dev (k + 1)
    else [.charLookup]

/-- Events of the notification phase of `HeartRateLoop.start`, from
`hrm.StartNotify()` on. -/
inductive SessEvent
  | startNotify
  | notification (k : Nat)
  | loopQuit
  | stopNotify
  | deviceDisconnect
  | signalUnsubscribe
deriving DecidableEq

/-- The GLib main loop delivering `n` notifications and then being
interrupted (`KeyboardInterrupt`). -/
def main_loop_run (n : Nat) : List SessEvent :=
  (List.range n).map .notification

/-- Embedding of the tail of `HeartRateLoop.start`: `StartNotify`, run
the main loop until `KeyboardInterrupt` after `n` notifications, then
`loop.quit()`, `hrm.StopNotify()`, `self.device.Disconnect()`, and the
`with` block releasing the `PropertiesChanged` signal connection. -/
def session_run (n : Nat) : List SessEvent :=
  .startNotify :: (main_loop_run n ++ [.loopQuit, .stopNotify, .deviceDisconnect, .signalUnsubscribe])

/-- Service UUID the script filters devices by. -/
def HRM_service_uuid : String := "0000180d-0000-1000-8000-00805f9b34fb"

/-- Characteristic UUID the script subscribes to. -/
def HRM_characteristic_uuid : String := "00002a37-0000-1000-8000-00805f9b34fb"

instance : DecidableEq (Except PyErr HR_measurement) := fun a b =>
  match a, b with
  | .ok x, .ok y =>
    if h : x = y then .isTrue (congrArg Except.ok h)
    else .isFalse (fun hh => h (Except.ok.inj hh))
  | .error e, .error f =>
    if h : e = f then .isTrue (congrArg Except.error h)
    else .isFalse (fun hh => h (Except.error.inj hh))
  | .ok _, .error _ => .isFalse (fun hh => Except.noConfusion hh)
  | .error _, .ok _ => .isFalse (fun hh => Except.noConfusion hh)

lemma as_uint_nil : as_uint [] = 0 := rfl

lemma as_uint_one (a : Nat) : as_uint [a] = a := by
  simp [as_uint, List.range_succ]

lemma as_uint_two (a b : Nat) : as_uint [a, b] = a + 256 * b := by
  simp [as_uint, List.range_succ]
  ring

lemma rr_loop_error_eq : ∀ (l : List Nat) (e : PyErr), rr_loop l = .error e →
    e = .zeroDivisionError
  | [], _, h => by simp [rr_loop] at h
  | [a], e, h => by
    simp only [rr_loop] at h
    split at h
    · exact (Except.error.inj h).symm
    · simp at h
  | a :: b :: rest, e, h => by
    simp only [rr_loop] at h
    split at h
    · exact (Except.error.inj h).symm
    · split at h
      · simp at h
      · next e2 heq =>
        injection h with h2
        exact h2 ▸ rr_loop_error_eq rest e2 heq

lemma decode_rr_error_eq (hr : Nat) (ee : Option Nat) (d : List Nat) (e : PyErr)
    (h : decode_rr hr ee d = .error e) : e = .zeroDivisionError := by
  unfold decode_rr at h
  split at h
  · simp at h
  · next heq => exact rr_loop_error_eq d e (heq.trans (congrArg Except.error (Except.error.inj h)))

lemma decode_ee_error_eq (flags hr : Nat) (d : List Nat) (e : PyErr)
    (h : decode_ee flags hr d = .error e) : e = .zeroDivisionError := by
  unfold decode_ee at h
  split at h
  · exact decode_rr_error_eq _ _ _ _ h
  · exact decode_rr_error_eq _ _ _ _ h

lemma decode_rr_ok_fields (hr : Nat) (ee : Option Nat) (d : List Nat) (m : HR_measurement)
    (h : decode_rr hr ee d = .ok m) : m.HR = hr ∧ m.EE = ee := by
  unfold decode_rr at h
  split at h
  · cases Except.ok.inj h; exact ⟨rfl, rfl⟩
  · simp at h

lemma decode_ee_ok_HR (flags hr : Nat) (d : List Nat) (m : HR_measurement)
    (h : decode_ee flags hr d = .ok m) : m.HR = hr := by
  unfold decode_ee at h
  split at h
  · exact (decode_rr_ok_fields _ _ _ _ h).1
  · exact (decode_rr_ok_fields _ _ _ _ h).1

/-- C1 counterexample: the spec's two truncation examples do not fail at
all — `HR_measurement` decodes both frames successfully, because Python
slicing never raises and `as_uint` of a short or empty slice just reads
the remaining bytes. -/
theorem C1_truncation_counterexample :
    HR_measurement.decode [8, 70, 0, 10] = .ok ⟨70, some 2560, []⟩ ∧
    HR_measurement.decode [0, 60, 0, 4] = .ok ⟨60, none, [60]⟩ := by
  constructor
  · simp [HR_measurement.decode, decode_ee, decode_rr, rr_loop, as_uint_two, as_uint_one]
    decide
  · simp [HR_measurement.decode, decode_ee, decode_rr, rr_loop, as_uint_two, as_uint_one]

/-- C1 amended: the decoder has no truncation error. Whatever the frame,
the only failures of `HR_measurement.decode` are an `IndexError` on an
empty frame and a `ZeroDivisionError` on a zero RR chunk; under-length
declared fields decode from whatever bytes remain (an empty slice reads
as 0). -/
theorem C1_no_truncated_error (data : List Nat) (e : PyErr)
    (h : HR_measurement.decode data = .error e) :
    (data = [] ∧ e = .indexError) ∨ e = .zeroDivisionError := by
  cases data with
  | nil => exact Or.inl ⟨rfl, (Except.error.inj h).symm⟩
  | cons flags rest =>
    refine Or.inr ?_
    simp only [HR_measurement.decode] at h
    split at h
    · exact decode_ee_error_eq _ _ _ _ h
    · exact decode_ee_error_eq _ _ _ _ h

/-- C1 witness: instantiates the amended theorem on the zero-chunk frame
`[0x00, 60, 0x00, 0x00]`. -/
theorem C1_no_truncated_error_witness :
    (([0, 60, 0, 0] : List Nat) = [] ∧ PyErr.zeroDivisionError = PyErr.indexError) ∨
      PyErr.zeroDivisionError = PyErr.zeroDivisionError :=
  C1_no_truncated_error [0, 60, 0, 0] .zeroDivisionError (by
    simp [HR_measurement.decode, decode_ee, decode_rr, rr_loop, as_uint_two])

/-- C3: a frame whose RR field contains a zero 2-byte chunk makes the
decoder raise `ZeroDivisionError` from `60 * 1024 / as_uint(data[0:2])`.
The exception is the bare Python arithmetic fault — no typed
`DecodeError::DivideByZero` exists in the source, and
`notification_handler` catches only `KeyError`, so it escapes. -/
theorem C3_zero_rr_chunk_division_fault :
    HR_measurement.decode [0, 60, 0, 0] = .error .zeroDivisionError := by
  simp [HR_measurement.decode, decode_ee, decode_rr, rr_loop, as_uint_two]

/-- C4 counterexample: a 2-byte RR chunk of value 1024 (frame
`[0x00, 60, 0x00, 0x04]`) decodes to the RR value 60, not to 60000.0 —
the source computes `60 * 1024 / v`, a factor 1000 short of the claimed
`60000 * 1024 / v` milliseconds. -/
theorem C4_rr_unit_counterexample :
    HR_measurement.decode [0, 60, 0, 4] = .ok ⟨60, none, [60]⟩ ∧ (60 : ℚ) ≠ 60000 := by
  constructor
  · simp [HR_measurement.decode, decode_ee, decode_rr, rr_loop, as_uint_two, as_uint_one]
  · norm_num

/-- C4 amended: each 2-byte little-endian RR chunk of value
`v = lo + 256 * hi > 0` is converted to the value `60 * 1024 / v` (the
source formula, with no millisecond scaling); in particular a chunk of
value 1024 yields 60.0. -/
theorem C4_rr_chunk_formula (lo hi : Nat) (h : 0 < lo + 256 * hi) :
    HR_measurement.decode [0, 60, lo, hi] =
      .ok ⟨60, none, [60 * 1024 / ((lo + 256 * hi : Nat) : ℚ)]⟩ := by
  have hz : ¬(lo = 0 ∧ hi = 0) := by omega
  simp [HR_measurement.decode, decode_ee, decode_rr, rr_loop, as_uint_one, as_uint_two, hz]

/-- C4 witness: the amended formula applied to the chunk `[0x00, 0x04]`
of value 1024. -/
theorem C4_rr_chunk_formula_witness :
    HR_measurement.decode [0, 60, 0, 4] =
      .ok ⟨60, none, [60 * 1024 / ((0 + 256 * 4 : Nat) : ℚ)]⟩ :=
  C4_rr_chunk_formula 0 4 (by norm_num)

/-- C7: flags bit 0 selects the heart-rate width — set means the next
two bytes little-endian, clear means the next single byte — and the two
example frames `[0x00, 64]` and `[0x01, 64, 0]` both decode to a heart
rate of 64 with no energy and no RR intervals. -/
theorem C7_hr_width :
    (∀ (flags b0 b1 : Nat) (rest : List Nat) (m : HR_measurement),
        flags.testBit 0 = true → HR_measurement.decode (flags :: b0 :: b1 :: rest) = .ok m →
        m.HR = b0 + 256 * b1) ∧
    (∀ (flags b0 : Nat) (rest : List Nat) (m : HR_measurement),
        flags.testBit 0 = false → HR_measurement.decode (flags :: b0 :: rest) = .ok m →
        m.HR = b0) ∧
    HR_measurement.decode [0, 64] = .ok ⟨64, none, []⟩ ∧
    HR_measurement.decode [1, 64, 0] = .ok ⟨64, none, []⟩ := by
  refine ⟨?_, ?_, ?_, ?_⟩
  · intro flags b0 b1 rest m hb hdec
    simp only [HR_measurement.decode, hb, if_true, List.take_succ_cons, List.take_zero,
      List.drop_succ_cons, List.drop_zero] at hdec
    rw [decode_ee_ok_HR _ _ _ _ hdec, as_uint_two]
  · intro flags b0 rest m hb hdec
    simp only [HR_measurement.decode, hb, Bool.false_eq_true, if_false, List.take_succ_cons,
      List.take_zero, List.drop_succ_cons, List.drop_zero] at hdec
    rw [decode_ee_ok_HR _ _ _ _ hdec, as_uint_one]
  · simp [HR_measurement.decode, decode_ee, decode_rr, rr_loop, as_uint_one]
  · simp [HR_measurement.decode, decode_ee, decode_rr, rr_loop, as_uint_two]
    decide

/-- C7 witness: the one-byte-width branch applied to the decode of
`[0x00, 64]`. -/
theorem C7_hr_width_witness :
    (⟨64, none, ([] : List ℚ)⟩ : HR_measurement).HR = 64 :=
  C7_hr_width.2.1 0 64 [] ⟨64, none, []⟩ (by decide) C7_hr_width.2.2.1

/-- C10: a one-byte frame whose flags byte has bits 0 and 3 clear
decodes without failing, to heart rate 0 (the `as_uint` of the empty
slice after the flags byte), no energy, and no RR intervals. -/
theorem C10_bare_flags_byte (f : Nat) (h0 : f.testBit 0 = false) (h3 : f.testBit 3 = false) :
    HR_measurement.decode [f] = .ok ⟨0, none, []⟩ := by
  simp [HR_measurement.decode, decode_ee, decode_rr, rr_loop, h0, h3, as_uint_nil]

/-- C10 witness: the all-clear flags byte 0x00 alone. -/
theorem C10_bare_flags_byte_witness :
    HR_measurement.decode [0] = .ok ⟨0, none, []⟩ :=
  C10_bare_flags_byte 0 (by decide) (by decide)

lemma get_device_path_nil (u : String) : get_device_path [] u = none := rfl

/-- C2 counterexample: with the lookup returning no match (as it does on
an empty device list, `get_device_path [] u = none`) and `retry = 0`,
`get_device` starts and stops a discovery scan and recurses — it does
not raise `DeviceNotFound`, and with the retry counter clamped by
`max(-1, retry - 1)` it never will. -/
theorem C2_retry0_scans_counterexample :
    get_device 1 0 (fun _ => .nomatch) 0 =
      ([.startDiscovery, .stopDiscovery], .fuelExhausted) := rfl

/-- C2 amended: when the lookup merely returns no match, `get_device`
scans and recurses forever (outcome is only ever the fuel bound), never
raising `DeviceNotFound`; `DeviceNotFound` is raised — before any scan —
exactly when the lookup raises `AttributeError`/`KeyError` while the
retry counter is 0. -/
theorem C2_device_not_found_only_on_lookup_exception :
    (∀ (fuel : Nat) (retry : Int) (lookup : Nat → LookupRes) (k : Nat),
        (∀ j, lookup j = .nomatch) →
        (get_device fuel retry lookup k).2 = .fuelExhausted) ∧
    (∀ (fuel k : Nat) (lookup : Nat → LookupRes),
        lookup k = .raises →
        get_device (fuel + 1) 0 lookup k = ([], .deviceNotFound)) := by
  constructor
  · intro fuel
    induction fuel with
    | zero => intro retry lookup k hl; rfl
    | succ n ih =>
      intro retry lookup k hl
      simp only [get_device, hl k]
      exact ih _ lookup (k + 1) hl
  · intro fuel k lookup hl
    simp [get_device, hl]

/-- C2 witness: the amended theorem on an all-no-match lookup and on a
raising lookup with retry 0. -/
theorem C2_device_not_found_only_on_lookup_exception_witness :
    (get_device 2 5 (fun _ => LookupRes.nomatch) 0).2 = DiscOutcome.fuelExhausted ∧
    get_device 1 0 (fun _ => LookupRes.raises) 0 = ([], DiscOutcome.deviceNotFound) :=
  ⟨C2_device_not_found_only_on_lookup_exception.1 2 5 _ 0 (fun _ => rfl),
   C2_device_not_found_only_on_lookup_exception.2 0 0 _ rfl⟩

/-- C5 counterexample: if the device is disconnected (and unresolved)
when the wait loop checks it, `resolve_wait` exits at once and proceeds
to the characteristic lookup — no `ConnectionError` is raised. -/
theorem C5_disconnect_proceeds_counterexample :
    resolve_wait 3 (fun _ => ⟨false, false⟩) 0 = [.charLookup] := rfl

/-- C5 amended: the loop sleeps 0.5 s per poll exactly while the device
is unresolved and still connected; as soon as the device is seen
disconnected (or resolved) the code falls through to
`get_characteristic_path`, and no trace ever contains a raised
connection error. -/
theorem C5_resolution_wait_behaviour :
    (∀ (fuel : Nat) (dev : Nat → DevState) (k : Nat),
        (dev k).ServicesResolved = false → (dev k).Connected = true →
        resolve_wait (fuel + 1) dev k = .sleep (1 / 2) :: resolve_wait fuel dev (k + 1)) ∧
    (∀ (fuel : Nat) (dev : Nat → DevState) (k : Nat),
        (dev k).Connected = false →
        resolve_wait (fuel + 1) dev k = [.charLookup]) ∧
    (∀ (fuel : Nat) (dev : Nat → DevState) (k : Nat),
        ResolveEvent.connectionErrorRaised ∉ resolve_wait fuel dev k) := by
  refine ⟨?_, ?_, ?_⟩
  · intro fuel dev k h1 h2
    simp [resolve_wait, h1, h2]
  · intro fuel dev k h1
    simp [resolve_wait, h1]
  · intro fuel
    induction fuel with
    | zero => intro dev k; simp [resolve_wait]
    | succ n ih =>
      intro dev k
      simp only [resolve_wait]
      split
      · simp [ih dev (k + 1)]
      · simp

/-- C5 witness: one unresolved-connected poll, one disconnected exit,
and error-freeness of a concrete trace. -/
theorem C5_resolution_wait_behaviour_witness :
    resolve_wait 1 (fun _ => ⟨false, true⟩) 0 =
      .sleep (1 / 2) :: resolve_wait 0 (fun _ => ⟨false, true⟩) 1 ∧
    resolve_wait 1 (fun _ => ⟨false, false⟩) 0 = [.charLookup] ∧
    ResolveEvent.connectionErrorRaised ∉ resolve_wait 2 (fun _ => ⟨false, true⟩) 0 :=
  ⟨C5_resolution_wait_behaviour.1 0 _ 0 rfl rfl,
   C5_resolution_wait_behaviour.2.1 0 _ 0 rfl,
   C5_resolution_wait_behaviour.2.2 2 _ 0⟩

/-- C6 counterexample: a notification whose payload contains a zero RR
chunk is not logged and discarded by the handler — the
`ZeroDivisionError` raised inside `HR_measurement(data)` escapes
`notification_handler`, whose `try` catches only `KeyError`. -/
theorem C6_decode_fault_escapes_counterexample :
    notification_handler (some [0, 60, 0, 0]) = .uncaught .zeroDivisionError := by
  simp [notification_handler, HR_measurement.decode, decode_ee, decode_rr, rr_loop, as_uint_two]

/-- C6 amended: the handler logs and discards exactly the notifications
missing a `Value` entry (`KeyError`); a payload that decodes is printed,
and a payload whose decode raises propagates that exception out of the
handler. Each notification is processed independently, so valid frames
after a malformed one are still decoded and printed, but survival of
the session is up to the surrounding event loop, not the handler. -/
theorem C6_handler_catches_only_missing_value :
    notification_handler none = HandlerOutcome.ignoredNoValue ∧
    (∀ (d : List Nat) (m : HR_measurement),
        HR_measurement.decode d = .ok m → notification_handler (some d) = .printed m) ∧
    (∀ (d : List Nat) (e : PyErr),
        HR_measurement.decode d = .error e → notification_handler (some d) = .uncaught e) := by
  refine ⟨rfl, ?_, ?_⟩
  · intro d m h
    simp [notification_handler, h]
  · intro d e h
    simp [notification_handler, h]

/-- C6 witness: a valid frame is printed and an empty frame's
`IndexError` escapes. -/
theorem C6_handler_catches_only_missing_value_witness :
    notification_handler (some [0, 64]) = .printed ⟨64, none, []⟩ ∧
    notification_handler (some []) = .uncaught .indexError :=
  ⟨C6_handler_catches_only_missing_value.2.1 [0, 64] ⟨64, none, []⟩ rfl,
   C6_handler_catches_only_missing_value.2.2 [] .indexError rfl⟩

/-- C8: once a device is found, `connect_device(retry=2)` — under the
transport assumption that a non-raising `Connect()` leaves the device
connected — calls `Connect` at most twice; after a first failed attempt
(with an attempt remaining) it calls `Disconnect` before retrying, and
`DeviceConnexionError` is raised exactly when both attempts raise, with
the trace `Connect, Disconnect, Connect`. -/
theorem C8_connect_retry (env : ConnEnv) (n : Nat)
    (hsucc : ∀ i, env.raises i = false → env.connected (i + 1) = true) :
    (connect_device (n + 3) 2 env 0).1.count .connectCall ≤ 2 ∧
    ((connect_device (n + 3) 2 env 0).2 = .connError ↔
      env.connected 0 = false ∧ env.raises 0 = true ∧
        env.connected 1 = false ∧ env.raises 1 = true) ∧
    ((connect_device (n + 3) 2 env 0).2 = .connError →
      (connect_device (n + 3) 2 env 0).1 = [.connectCall, .disconnectCall, .connectCall]) ∧
    (env.connected 0 = false → env.raises 0 = true →
      (connect_device (n + 3) 2 env 0).1.take 2 = [.connectCall, .disconnectCall]) := by
  cases hc0 : env.connected 0 with
  | true => simp [connect_device, hc0]
  | false =>
    cases hr0 : env.raises 0 with
    | false =>
      have hc1 := hsucc 0 hr0
      simp [connect_device, hc0, hr0, hc1]
    | true =>
      cases hc1 : env.connected 1 with
      | true => simp [connect_device, hc0, hr0, hc1]
      | false =>
        cases hr1 : env.raises 1 with
        | true => simp [connect_device, hc0, hr0, hc1, hr1]
        | false =>
          have hc2 := hsucc 1 hr1
          simp [connect_device, hc0, hr0, hc1, hr1, hc2]

/-- C8 witness: a device that never reports connected and whose every
`Connect()` raises. -/
theorem C8_connect_retry_witness :
    (connect_device 3 2 ⟨fun _ => false, fun _ => true⟩ 0).1.count ConnEvent.connectCall ≤ 2 ∧
    ((connect_device 3 2 ⟨fun _ => false, fun _ => true⟩ 0).2 = ConnResult.connError ↔
      (false = false ∧ true = true ∧ false = false ∧ true = true)) ∧
    ((connect_device 3 2 ⟨fun _ => false, fun _ => true⟩ 0).2 = ConnResult.connError →
      (connect_device 3 2 ⟨fun _ => false, fun _ => true⟩ 0).1 =
        [ConnEvent.connectCall, ConnEvent.disconnectCall, ConnEvent.connectCall]) ∧
    (false = false → true = true →
      (connect_device 3 2 ⟨fun _ => false, fun _ => true⟩ 0).1.take 2 =
        [ConnEvent.connectCall, ConnEvent.disconnectCall]) :=
  C8_connect_retry ⟨fun _ => false, fun _ => true⟩ 0 (fun _ h => Bool.noConfusion h)

lemma main_loop_run_count (e : SessEvent) (h : ∀ k, e ≠ .notification k) (n : Nat) :
    (main_loop_run n).count e = 0 := by
  rw [List.count_eq_zero]
  simp only [main_loop_run, List.mem_map]
  rintro ⟨k, _, hk⟩
  exact h k hk.symm

/-- C9: however many notifications the main loop delivered before the
`KeyboardInterrupt`, the session teardown performs `StopNotify` exactly
once and `Disconnect` exactly once, with `StopNotify` before
`Disconnect`. -/
theorem C9_teardown_order (n : Nat) :
    (session_run n).count SessEvent.stopNotify = 1 ∧
    (session_run n).count SessEvent.deviceDisconnect = 1 ∧
    List.Sublist [SessEvent.stopNotify, SessEvent.deviceDisconnect] (session_run n) := by
  refine ⟨?_, ?_, ?_⟩
  · simp [session_run, List.count_cons, List.count_append,
      main_loop_run_count SessEvent.stopNotify (by intro k; simp) n]
  · simp [session_run, List.count_cons, List.count_append,
      main_loop_run_count SessEvent.deviceDisconnect (by intro k; simp) n]
  · have h1 : List.Sublist [SessEvent.stopNotify, SessEvent.deviceDisconnect]
        [SessEvent.loopQuit, SessEvent.stopNotify, SessEvent.deviceDisconnect,
          SessEvent.signalUnsubscribe] :=
      ((List.nil_sublist [SessEvent.signalUnsubscribe]).cons₂
        SessEvent.deviceDisconnect).cons₂ SessEvent.stopNotify |>.cons SessEvent.loopQuit
    exact ((h1.trans (List.sublist_append_right _ _)).cons SessEvent.startNotify :
      List.Sublist _ (SessEvent.startNotify :: (main_loop_run n ++ _)))

/-- C9 witness: the teardown properties after five delivered
notifications. -/
theorem C9_teardown_order_witness :
    (session_run 5).count SessEvent.stopNotify = 1 ∧
    (session_run 5).count SessEvent.deviceDisconnect = 1 ∧
    List.Sublist [SessEvent.stopNotify, SessEvent.deviceDisconnect] (session_run 5) :=
  C9_teardown_order 5
